import Mathlib

/-!
# audio_listen: the WebSocket relay of `backend/server.js`

A shallow embedding of `src/backend/server.js`: the shared listening state
(`isListening`, `currentListener`), the per-connection `message`, `close` and
`error` listeners, the broadcast loop over `wss.clients`, and the
`POST /upload` handler.

Modelling conventions.

* `JSON.parse` is a built-in, not code of the repository: every definition that
  calls it takes it as the parameter `parse`, where `none` stands for the
  `SyntaxError` caught at lines 50-55.
* `JSON.stringify` is not run: a sent frame is recorded as the object literal
  `{ status, userId }` it is applied to (`Message`).
* `console.log` / `console.error` have no effect on the modelled state.
* A handler invocation yields the world it leaves behind and the exception that
  escaped it, if any (`Result`). An exception escaping a listener is uncaught
  (the file installs no handler for it), so `run` stops there.
* A text frame is a `data` argument of type string, which is what line 48
  tests; a binary frame is one for which `Buffer.isBuffer` holds.
* The transport (the `ws` library) owns `readyState` and decides whether a frame
  sent on an open socket reaches the client; both are fields of a `Session`
  which the environment may change between events (`Event.transport`).
* Paths are POSIX paths.
-/

namespace AudioListen

/-! ## JavaScript values -/

/-- JavaScript values that the handlers can see: results of `JSON.parse`
(`null`, booleans, numbers, strings, arrays, objects) and `undefined`, the
result of reading an absent property. A number is kept as the bit pattern of
its IEEE-754 double; the handlers never inspect it. -/
inductive JSValue where
  | undefined : JSValue
  | null : JSValue
  | bool (b : Bool) : JSValue
  | number (bits : Nat) : JSValue
  | string (s : String) : JSValue
  | array (items : List JSValue) : JSValue
  | object (props : List (String × JSValue)) : JSValue

/-- Reading a property of `null` or `undefined` throws a `TypeError`. -/
def JSValue.isNullish : JSValue → Bool
  | .undefined => true
  | .null => true
  | _ => false

/-- The value is neither `null` nor `undefined`. -/
def JSValue.isDefined (v : JSValue) : Bool := !v.isNullish

/-- Property read `v.k` on a base that is not nullish, for a key `k` that the
built-in prototypes do not define (the handlers read `type`, `status` and
`userId` only): the own property of an object, `undefined` otherwise. The
list of an object holds each own property once, as `JSON.parse` builds it. -/
def JSValue.prop : JSValue → String → JSValue
  | .object props, k => (props.lookup k).getD .undefined
  | _, _ => .undefined

/-- Strict equality `v === s` against a string literal. -/
def JSValue.strictEqString : JSValue → String → Bool
  | .string t, s => decide (t = s)
  | _, _ => false

/-! ## Sessions and shared state -/

/-- Exceptions that can escape a listener. -/
inductive Exception where
  | typeError
  | sendError
  | enoent
  deriving DecidableEq, Repr

/-- The `readyState` of a WebSocket. -/
inductive ReadyState where
  | CONNECTING
  | OPEN
  | CLOSING
  | CLOSED
  deriving DecidableEq, Repr

/-- What becomes of a frame sent on an open socket: it reaches the client, or
the send fails and the frame is lost (the failure is reported asynchronously,
on that socket; the call itself returns). -/
inductive SendBehaviour where
  | delivers
  | drops
  deriving DecidableEq, Repr

/-- The object literal `{ status, userId }` given to `JSON.stringify` at lines
39 and 64. -/
structure Message where
  status : JSValue
  userId : JSValue

/-- The `fs.WriteStream` of one connection (line 44): its path, the bytes
written to it so far, and how many times `end()` was called on it. -/
structure WriteStream where
  path : String
  written : List Nat
  endCalls : Nat

/-- One element of `wss.clients` together with the closure of its connection
listener (`audioStream`) and the frames its client has received. -/
structure Session where
  readyState : ReadyState
  sendBehaviour : SendBehaviour
  received : List Message
  audioStream : WriteStream

/-- The process state: the two globals of lines 32-33 and `wss.clients` in
insertion order. A session whose socket has closed stays in the list with the
`readyState` the transport gave it. -/
structure World where
  isListening : Bool
  currentListener : JSValue
  clients : List Session

/-- The state at process start (lines 32-33), no client connected. -/
def World.initial : World :=
  { isListening := false, currentListener := .null, clients := [] }

/-- The outcome of one listener invocation: the world it leaves and the
exception that escaped it, if any. -/
structure Result where
  world : World
  thrown : Option Exception

/-- The argument `data` of the `message` listener: a string (text frame), a
`Buffer` (binary frame), or a value that is neither (an `ArrayBuffer`, an array
of fragments). -/
inductive Data where
  | text (s : String)
  | buffer (bytes : List Nat)
  | other

/-! ## The WebSocket path (lines 35-82) -/

/-- The call `client.send(JSON.stringify(m))`, with no callback. On a socket
that is still `CONNECTING` the call throws; on an `OPEN` socket it returns and
the frame is delivered or lost; on a `CLOSING` or `CLOSED` socket it returns
and nothing is sent. -/
def Session.send (c : Session) (m : Message) : Except Exception Session :=
  match c.readyState with
  | .CONNECTING => .error .sendError
  | .OPEN =>
    match c.sendBehaviour with
    | .delivers => .ok { c with received := c.received ++ [m] }
    | .drops => .ok c
  | .CLOSING => .ok c
  | .CLOSED => .ok c

/-- The loop `wss.clients.forEach(...)` of lines 62-66: clients are visited in
insertion order, one that is not `OPEN` is skipped, and an exception thrown by
`send` ends the loop. -/
def broadcast (m : Message) : List Session → List Session × Option Exception
  | [] => ([], none)
  | c :: cs =>
    if c.readyState = .OPEN then
      match c.send m with
      | .ok c' => ((c' :: (broadcast m cs).1), (broadcast m cs).2)
      | .error e => (c :: cs, some e)
    else (c :: (broadcast m cs).1, (broadcast m cs).2)

/-- The state push of line 39. -/
def initialState (w : World) : Message :=
  { status := .string (if w.isListening then "Listening..." else ""),
    userId := w.currentListener }

/-- The call `audioStream.write(data)`: the chunk is appended. On a stream on
which `end()` was called the call returns as well and the chunk is not
written; the error the stream reports for it afterwards is not modelled. -/
def WriteStream.write (s : WriteStream) (chunk : List Nat) : WriteStream :=
  if s.endCalls = 0 then { s with written := s.written ++ chunk } else s

/-- The call `audioStream.end()`. -/
def WriteStream.end (s : WriteStream) : WriteStream :=
  { s with endCalls := s.endCalls + 1 }

/-- The session with its stream replaced by the stream after an operation. -/
def Session.withStream (c : Session) (s : WriteStream) : Session :=
  { c with audioStream := s }

/-- The session after `audioStream.end()`. -/
def Session.endStream (c : Session) : Session :=
  c.withStream c.audioStream.end

/-- The session after the transport changed its socket. -/
def Session.setTransport (rs : ReadyState) (sb : SendBehaviour) (c : Session) : Session :=
  { c with readyState := rs, sendBehaviour := sb }

/-- The branch `message.type === "toggle-listen"` of lines 57-67. -/
def toggleListen (w : World) (message : JSValue) : Result :=
  let isListening := (message.prop "status").strictEqString "Listening..."
  let currentListener := if isListening then message.prop "userId" else .null
  let sent := broadcast
    { status := message.prop "status", userId := message.prop "userId" } w.clients
  { world := { isListening := isListening, currentListener := currentListener,
               clients := sent.1 },
    thrown := sent.2 }

/-- The `message` listener of connection `i` (lines 46-71). The text branch
does not depend on `i`; the binary branch writes to the stream of session `i`,
and an index that names no session has no listener to run. -/
def onMessage (parse : String → Option JSValue) (w : World) (i : Nat) (data : Data) :
    Result :=
  match data with
  | .text s =>
    match parse s with
    | none => { world := w, thrown := none }
    | some message =>
      if message.isNullish then { world := w, thrown := some .typeError }
      else if (message.prop "type").strictEqString "toggle-listen" then
        toggleListen w message
      else { world := w, thrown := none }
  | .buffer bytes =>
    match w.clients[i]? with
    | none => { world := w, thrown := none }
    | some c =>
      let written := c.audioStream.write bytes
      { world := { w with clients := w.clients.set i (c.withStream written) },
        thrown := none }
  | .other => { world := w, thrown := none }

/-- The `close` listener (lines 73-76) and the `error` listener (lines 78-81)
of connection `i`: both call `audioStream.end()` and nothing else. -/
def onCloseOrError (w : World) (i : Nat) : Result :=
  { world := { w with clients := w.clients.modify Session.endStream i },
    thrown := none }

/-- The file name of line 42; `rnd` stands for
`Math.random().toString(36).substr(2, 5)`. -/
def audioFilename (now : Nat) (rnd : String) : String :=
  "stream-" ++ toString now ++ "-" ++ rnd ++ ".webm"

/-- The pieces of a path between its `/` separators. -/
def splitSegments : List Char → List (List Char)
  | [] => [[]]
  | c :: cs =>
    if c = '/' then [] :: splitSegments cs
    else
      match splitSegments cs with
      | [] => [[c]]
      | seg :: segs => (c :: seg) :: segs

/-- The segments of a path resolved as `path.normalize` does: empty segments
and `.` are dropped, `..` removes the segment before it, and a `..` with
nothing to remove is kept only when the path is relative. `stack` holds the
segments kept so far, last one first. -/
def resolveSegments (allowAboveRoot : Bool) :
    List (List Char) → List (List Char) → List (List Char)
  | stack, [] => stack.reverse
  | stack, seg :: segs =>
    if seg = [] ∨ seg = ['.'] then resolveSegments allowAboveRoot stack segs
    else if seg = ['.', '.'] then
      match stack with
      | [] => resolveSegments allowAboveRoot (if allowAboveRoot then [seg] else []) segs
      | top :: rest =>
        if top = ['.', '.'] then resolveSegments allowAboveRoot (seg :: stack) segs
        else resolveSegments allowAboveRoot rest segs
    else resolveSegments allowAboveRoot (seg :: stack) segs

/-- Segments put back together with `/` between them. -/
def joinSegments : List (List Char) → List Char
  | [] => []
  | seg :: segs =>
    match segs with
    | [] => seg
    | _ :: _ => seg ++ '/' :: joinSegments segs

/-- The call `path.normalize(p)`. -/
def pathNormalize (p : String) : String :=
  if p.data = [] then "."
  else
    let isAbsolute := decide (p.data.head? = some '/')
    let trailingSeparator := decide (p.data.getLast? = some '/')
    let body := joinSegments (resolveSegments (!isAbsolute) [] (splitSegments p.data))
    if body = [] then
      if isAbsolute then "/" else if trailingSeparator then "./" else "."
    else
      String.mk ((if isAbsolute then ['/'] else []) ++ body
        ++ (if trailingSeparator then ['/'] else []))

/-- The call `path.join(dir, name)`: the arguments that are not empty, joined
by `/` and normalised. -/
def pathJoin (dir name : String) : String :=
  if dir.data = [] then pathNormalize name
  else if name.data = [] then pathNormalize dir
  else pathNormalize (dir ++ "/" ++ name)

/-- The directory of line 14. -/
def recordingsDir (dirname : String) : String := pathJoin dirname "recordings"

/-- The `connection` listener (lines 35-82) for a new socket, which is `OPEN`:
the state push is sent to it alone, then its stream is created. -/
def onConnection (dirname : String) (w : World) (now : Nat) (rnd : String)
    (sb : SendBehaviour) : Result :=
  let ws : Session :=
    { readyState := .OPEN, sendBehaviour := sb, received := [],
      audioStream := { path := pathJoin (recordingsDir dirname) (audioFilename now rnd),
                       written := [], endCalls := 0 } }
  match ws.send (initialState w) with
  | .ok ws' => { world := { w with clients := w.clients ++ [ws'] }, thrown := none }
  | .error e => { world := w, thrown := some e }

/-- The events of the WebSocket path. `transport` is the environment changing
the `readyState` of a socket and whether frames sent on it arrive. -/
inductive Event where
  | connection (now : Nat) (rnd : String) (sb : SendBehaviour)
  | message (i : Nat) (data : Data)
  | close (i : Nat)
  | error (i : Nat)
  | transport (i : Nat) (rs : ReadyState) (sb : SendBehaviour)

/-- One event, handled by the listener registered for it. -/
def step (parse : String → Option JSValue) (dirname : String) (w : World) :
    Event → Result
  | .connection now rnd sb => onConnection dirname w now rnd sb
  | .message i data => onMessage parse w i data
  | .close i => onCloseOrError w i
  | .error i => onCloseOrError w i
  | .transport i rs sb =>
    { world := { w with clients := w.clients.modify (Session.setTransport rs sb) i },
      thrown := none }

/-- A sequence of events, handled one at a time in order; an uncaught exception
ends the process, so the events after it are not handled. -/
def run (parse : String → Option JSValue) (dirname : String) :
    World → List Event → Result
  | w, [] => { world := w, thrown := none }
  | w, e :: es =>
    match (step parse dirname w e).thrown with
    | none => run parse dirname (step parse dirname w e).world es
    | some x => { world := (step parse dirname w e).world, thrown := some x }

/-! ## The upload path (lines 17-27 and 84-92) -/

/-- The `filename` callback of the disk storage (lines 22-25). -/
def storage.filename (now : Nat) : String :=
  "recording-" ++ toString now ++ ".webm"

/-- The `destination` callback of the disk storage (lines 19-21). -/
def storage.destination (dirname : String) : String := recordingsDir dirname

/-- The object `req.file` that the upload middleware leaves for the handler
when it accepted a file in the field `audio`. -/
structure MulterFile where
  destination : String
  filename : String
  path : String
  size : Nat

/-- The files on disk: path and content, the first entry for a path being the
current one. -/
abbrev FileSystem := List (String × List Nat)

/-- The call `fs.statSync(path).size`; `none` stands for the `ENOENT` it throws. -/
def statSync (fs : FileSystem) (path : String) : Option Nat :=
  (fs.lookup path).map List.length

/-- The disk storage of lines 18-27 taking the one file the middleware
accepted: it asks the two callbacks for the directory and the name, writes the
bytes to `path.join(destination, filename)` and describes the file for
`req.file`. -/
def storage.handleFile (dirname : String) (now : Nat) (bytes : List Nat)
    (fs : FileSystem) : FileSystem × MulterFile :=
  let destination := storage.destination dirname
  let filename := storage.filename now
  let finalPath := pathJoin destination filename
  ((finalPath, bytes) :: fs,
    { destination := destination, filename := filename, path := finalPath,
      size := bytes.length })

/-- An HTTP response: status code and JSON body. -/
structure Response where
  status : Nat
  body : JSValue

/-- The outcome of the upload handler: the world it leaves, the response it
sent, and the exception that escaped it, if any. -/
structure HttpResult where
  world : World
  response : Option Response
  thrown : Option Exception

/-- The handler of `POST /upload` (lines 85-92), which runs after the
middleware let the request through; `file` is `req.file`, `none` when it is
undefined. -/
def uploadHandler (w : World) (fs : FileSystem) (file : Option MulterFile) : HttpResult :=
  match file with
  | none =>
    { world := w,
      response := some { status := 400,
                         body := .object [("error", .string "No audio file provided")] },
      thrown := none }
  | some f =>
    match statSync fs f.path with
    | none => { world := w, response := none, thrown := some .enoent }
    | some _ =>
      { world := w,
        response := some { status := 200,
                           body := .object [("message", .string "File uploaded successfully"),
                                            ("filename", .string f.filename)] },
        thrown := none }

/-! ## Definitions used to state the claims -/

/-- What the broadcast loop does to one client. -/
def afterBroadcast (m : Message) (c : Session) : Session :=
  if c.readyState = .OPEN ∧ c.sendBehaviour = .delivers then
    { c with received := c.received ++ [m] }
  else c

/-- The `{ status, userId }` of an event that is a text frame parsing to a
message whose `type` is `"toggle-listen"`; `none` for every other event. -/
def toggleOf (parse : String → Option JSValue) : Event → Option Message
  | .message _ (.text s) =>
    match parse s with
    | some message =>
      if (message.prop "type").strictEqString "toggle-listen" then
        some { status := message.prop "status", userId := message.prop "userId" }
      else none
    | none => none
  | _ => none

/-- The `{ status, userId }` of the last toggle-listen message among the
events, if there is one. -/
def lastToggle (parse : String → Option JSValue) : List Event → Option Message
  | [] => none
  | e :: es =>
    match lastToggle parse es with
    | some m => some m
    | none => toggleOf parse e

/-- The state push expected after the given last toggle: the toggle itself when
its status is `"Listening..."`, and `{ status: "", userId: null }` when its
status is anything else or when there was no toggle. -/
def pushAfter : Option Message → Message
  | none => { status := .string "", userId := .null }
  | some m =>
    if m.status.strictEqString "Listening..." then m
    else { status := .string "", userId := .null }

/-- Every text frame among the events that parses to a toggle-listen message
with status `"Listening..."` carries a `userId` that is neither `null` nor
`undefined`. -/
def listenersDefined (parse : String → Option JSValue) : List Event → Bool
  | [] => true
  | .message _ (.text s) :: es =>
    (match parse s with
     | some message =>
       !((message.prop "type").strictEqString "toggle-listen"
           && (message.prop "status").strictEqString "Listening...")
         || (message.prop "userId").isDefined
     | none => true) && listenersDefined parse es
  | _ :: es => listenersDefined parse es

/-- The frames of connection `i` handled in order, each on the world the
previous handler left, whether or not that handler threw. -/
def receiveAll (parse : String → Option JSValue) (i : Nat) : World → List Data → World
  | w, [] => w
  | w, d :: ds => receiveAll parse i (onMessage parse w i d).world ds

/-- The concatenation, in order, of the payloads of the binary frames. -/
def binaryPayloads : List Data → List Nat
  | [] => []
  | .buffer bytes :: ds => bytes ++ binaryPayloads ds
  | _ :: ds => binaryPayloads ds

/-- The event is the close or the error of connection `i`. -/
def isCloseOrError (i : Nat) : Event → Bool
  | .close j => decide (j = i)
  | .error j => decide (j = i)
  | _ => false

/-! ## Sample inputs -/

/-- The text frame that starts listening for user `u1`. -/
def startFrame : String :=
  "\x7b\"type\":\"toggle-listen\",\"status\":\"Listening...\",\"userId\":\"u1\"\x7d"

/-- The text frame that stops listening, sent by user `u1`. -/
def stopFrame : String :=
  "\x7b\"type\":\"toggle-listen\",\"status\":\"\",\"userId\":\"u1\"\x7d"

/-- The text frame that starts listening with `userId` set to `null`. -/
def anonymousFrame : String :=
  "\x7b\"type\":\"toggle-listen\",\"status\":\"Listening...\",\"userId\":null\x7d"

/-- What `JSON.parse` returns on the sample frames, on the JSON text `null`
and on the text `oops`, which is not JSON (a `SyntaxError`, here `none`). No
other string is used with it. -/
def sampleParse (s : String) : Option JSValue :=
  if s = startFrame then
    some (.object [("type", .string "toggle-listen"), ("status", .string "Listening..."),
                   ("userId", .string "u1")])
  else if s = stopFrame then
    some (.object [("type", .string "toggle-listen"), ("status", .string ""),
                   ("userId", .string "u1")])
  else if s = anonymousFrame then
    some (.object [("type", .string "toggle-listen"), ("status", .string "Listening..."),
                   ("userId", .null)])
  else if s = "null" then some .null
  else none

/-- An open session with an empty stream whose `send` behaves as given. -/
def sampleClient (sb : SendBehaviour) : Session :=
  { readyState := .OPEN, sendBehaviour := sb, received := [],
    audioStream := { path := "recordings/stream-1-abcde.webm", written := [], endCalls := 0 } }

/-- A session whose socket is closing: the broadcast loop skips it. -/
def closingClient : Session :=
  { readyState := .CLOSING, sendBehaviour := .drops, received := [],
    audioStream := { path := "recordings/stream-2-fghij.webm", written := [], endCalls := 1 } }

/-! ## Lemmas on the embedding -/

theorem strictEqString_eq_true (v : JSValue) (s : String) :
    v.strictEqString s = true ↔ v = .string s := by
  cases v <;> simp [JSValue.strictEqString]

theorem prop_of_isNullish (m : JSValue) (k : String) (h : m.isNullish = true) :
    m.prop k = .undefined := by
  cases m <;> simp_all [JSValue.isNullish, JSValue.prop]

theorem not_isNullish_of_type (m : JSValue) (k s : String)
    (h : (m.prop k).strictEqString s = true) : m.isNullish = false := by
  cases hn : m.isNullish
  · rfl
  · rw [prop_of_isNullish m k hn] at h
    simp [JSValue.strictEqString] at h

theorem onMessage_toggle (parse : String → Option JSValue) (w : World) (i : Nat)
    (s : String) (message : JSValue) (hparse : parse s = some message)
    (htype : (message.prop "type").strictEqString "toggle-listen" = true) :
    onMessage parse w i (.text s) = toggleListen w message := by
  have hn := not_isNullish_of_type message "type" "toggle-listen" htype
  simp [onMessage, hparse, hn, htype]

theorem broadcast_eq_map (m : Message) (cs : List Session) :
    broadcast m cs = (cs.map (afterBroadcast m), none) := by
  induction cs with
  | nil => rfl
  | cons c cs ih =>
    by_cases ho : c.readyState = .OPEN
    · cases hb : c.sendBehaviour with
      | delivers => simp [broadcast, ho, Session.send, hb, ih, afterBroadcast]
      | drops => simp [broadcast, ho, Session.send, hb, ih, afterBroadcast]
    · simp [broadcast, ho, ih, afterBroadcast]

/-! ## Claims -/

/-- C1: for every shared state and every text frame that parses to a message
whose `type` is `"toggle-listen"`, after the message handler `isListening` is
`message.status === "Listening..."` and `currentListener` is `message.userId`
when `isListening` is true and `null` otherwise; for status `""` the state is
`isListening = false`, `currentListener = null`, whatever it was before. -/
theorem toggle_listen_sets_state (parse : String → Option JSValue) (w : World) (i : Nat)
    (s : String) (message : JSValue) (hparse : parse s = some message)
    (htype : (message.prop "type").strictEqString "toggle-listen" = true) :
    (onMessage parse w i (.text s)).world.isListening
        = (message.prop "status").strictEqString "Listening..." ∧
    (onMessage parse w i (.text s)).world.currentListener
        = (if (onMessage parse w i (.text s)).world.isListening then message.prop "userId"
           else .null) ∧
    (message.prop "status" = .string "" →
      (onMessage parse w i (.text s)).world.isListening = false ∧
      (onMessage parse w i (.text s)).world.currentListener = .null) := by
  rw [onMessage_toggle parse w i s message hparse htype]
  refine ⟨rfl, rfl, ?_⟩
  intro hs
  simp [toggleListen, hs, JSValue.strictEqString]

theorem toggle_listen_sets_state_witness :
    sampleParse stopFrame = some (.object [("type", .string "toggle-listen"),
      ("status", .string ""), ("userId", .string "u1")]) ∧
    (onMessage sampleParse ⟨true, .string "u0", [sampleClient .delivers]⟩ 0
        (.text stopFrame)).world.isListening = false ∧
    (onMessage sampleParse ⟨true, .string "u0", [sampleClient .delivers]⟩ 0
        (.text stopFrame)).world.currentListener = .null :=
  ⟨rfl, (toggle_listen_sets_state sampleParse ⟨true, .string "u0", [sampleClient .delivers]⟩ 0
      stopFrame _ rfl rfl).2.2 rfl⟩

/-- C2: for every toggle-listen message with status `"Listening..."` and userId
`U` and every list of clients whose open sockets deliver what is sent on them,
the handler returns normally, `isListening` is true, `currentListener` is `U`,
and every open client, the sender's session among them, has received exactly
one more message, `{ status: "Listening...", userId: U }`. -/
theorem listening_toggle_reaches_open_clients (parse : String → Option JSValue) (w : World)
    (i : Nat) (s : String) (message U : JSValue) (hparse : parse s = some message)
    (htype : (message.prop "type").strictEqString "toggle-listen" = true)
    (hstatus : message.prop "status" = .string "Listening...")
    (huser : message.prop "userId" = U)
    (hsend : ∀ c ∈ w.clients, c.readyState = .OPEN → c.sendBehaviour = .delivers) :
    (onMessage parse w i (.text s)).thrown = none ∧
    (onMessage parse w i (.text s)).world.isListening = true ∧
    (onMessage parse w i (.text s)).world.currentListener = U ∧
    (onMessage parse w i (.text s)).world.clients.length = w.clients.length ∧
    ∀ (j : Nat) (c : Session), w.clients[j]? = some c → c.readyState = .OPEN →
      ((onMessage parse w i (.text s)).world.clients[j]?).map Session.received
        = some (c.received ++ [{ status := .string "Listening...", userId := U }]) := by
  have hb := broadcast_eq_map { status := message.prop "status", userId := message.prop "userId" }
    w.clients
  subst huser
  rw [hstatus] at hb
  rw [onMessage_toggle parse w i s message hparse htype]
  simp only [toggleListen, hstatus, hb]
  refine ⟨trivial, by simp [JSValue.strictEqString], by simp [JSValue.strictEqString],
    by simp, ?_⟩
  intro j c hj ho
  have hd := hsend c (List.getElem?_mem hj) ho
  simp [List.getElem?_map, hj, afterBroadcast, ho, hd]

theorem listening_toggle_reaches_open_clients_witness :
    sampleParse startFrame = some (.object [("type", .string "toggle-listen"),
      ("status", .string "Listening..."), ("userId", .string "u1")]) ∧
    (∀ c ∈ [sampleClient .delivers, sampleClient .delivers],
      c.readyState = .OPEN → c.sendBehaviour = .delivers) ∧
    (onMessage sampleParse ⟨false, .null, [sampleClient .delivers, sampleClient .delivers]⟩ 0
        (.text startFrame)).world.currentListener = .string "u1" :=
  ⟨rfl, by decide,
    (listening_toggle_reaches_open_clients sampleParse
      ⟨false, .null, [sampleClient .delivers, sampleClient .delivers]⟩ 0 startFrame _
      (.string "u1") rfl rfl rfl rfl (by decide)).2.2.1⟩

/-- C9: for every broadcast of a toggle-listen frame, whatever the number of
clients to which sending fails (an open socket on which the send fails and the
frame is lost, or a socket that is not open, which the guard skips), no error
is raised out of the handler of the sender's frame, every open client whose
send delivers has received exactly one more message, the `{ status, userId }`
of the frame, and every other client is left as it was. -/
theorem broadcast_survives_lost_sends (parse : String → Option JSValue) (w : World)
    (i : Nat) (s : String) (message : JSValue) (hparse : parse s = some message)
    (htype : (message.prop "type").strictEqString "toggle-listen" = true) :
    (onMessage parse w i (.text s)).thrown = none ∧
    ∀ (j : Nat) (c : Session), w.clients[j]? = some c →
      (c.readyState = .OPEN → c.sendBehaviour = .delivers →
        ((onMessage parse w i (.text s)).world.clients[j]?).map Session.received
          = some (c.received
              ++ [{ status := message.prop "status", userId := message.prop "userId" }])) ∧
      (¬ (c.readyState = .OPEN ∧ c.sendBehaviour = .delivers) →
        (onMessage parse w i (.text s)).world.clients[j]? = some c) := by
  have hb := broadcast_eq_map { status := message.prop "status", userId := message.prop "userId" }
    w.clients
  rw [onMessage_toggle parse w i s message hparse htype]
  simp only [toggleListen, hb]
  refine ⟨trivial, ?_⟩
  intro j c hj
  constructor
  · intro ho hd
    simp [List.getElem?_map, hj, afterBroadcast, ho, hd]
  · intro hn
    simp [List.getElem?_map, hj, afterBroadcast, hn]

theorem broadcast_survives_lost_sends_witness :
    sampleParse startFrame = some (.object [("type", .string "toggle-listen"),
      ("status", .string "Listening..."), ("userId", .string "u1")]) ∧
    (onMessage sampleParse
        ⟨false, .null, [sampleClient .drops, sampleClient .delivers, closingClient]⟩ 1
        (.text startFrame)).thrown = none ∧
    ((onMessage sampleParse
        ⟨false, .null, [sampleClient .drops, sampleClient .delivers, closingClient]⟩ 1
        (.text startFrame)).world.clients[1]?).map Session.received
      = some [{ status := .string "Listening...", userId := .string "u1" }] :=
  ⟨rfl,
    (broadcast_survives_lost_sends sampleParse
      ⟨false, .null, [sampleClient .drops, sampleClient .delivers, closingClient]⟩ 1
      startFrame _ rfl rfl).1,
    rfl⟩

theorem step_shared_state (parse : String → Option JSValue) (dirname : String) (w : World)
    (e : Event) :
    (step parse dirname w e).world.isListening
        = (match toggleOf parse e with
           | none => w.isListening
           | some m => m.status.strictEqString "Listening...") ∧
    (step parse dirname w e).world.currentListener
        = (match toggleOf parse e with
           | none => w.currentListener
           | some m => if m.status.strictEqString "Listening..." then m.userId else .null) := by
  cases e with
  | connection now rnd sb =>
    cases sb <;> simp [step, onConnection, Session.send, toggleOf]
  | message i data =>
    cases data with
    | text s =>
      cases hp : parse s with
      | none => simp [step, onMessage, toggleOf, hp]
      | some message =>
        by_cases ht : (message.prop "type").strictEqString "toggle-listen" = true
        · have hn := not_isNullish_of_type message "type" "toggle-listen" ht
          simp [step, onMessage, toggleOf, hp, hn, ht, toggleListen]
        · by_cases hn : message.isNullish = true <;>
            simp [step, onMessage, toggleOf, hp, hn, ht]
    | buffer bytes =>
      cases hc : w.clients[i]? <;> simp [step, onMessage, toggleOf, hc]
    | other => simp [step, onMessage, toggleOf]
  | close i => simp [step, onCloseOrError, toggleOf]
  | error i => simp [step, onCloseOrError, toggleOf]
  | transport i rs sb => simp [step, toggleOf]

theorem step_listener_null (parse : String → Option JSValue) (dirname : String) (w : World)
    (e : Event) (h : w.isListening = false → w.currentListener = .null) :
    (step parse dirname w e).world.isListening = false →
      (step parse dirname w e).world.currentListener = .null := by
  obtain ⟨h1, h2⟩ := step_shared_state parse dirname w e
  rw [h1, h2]
  cases toggleOf parse e with
  | none => exact h
  | some m => intro hm; simp only [] at hm ⊢; simp [hm]

theorem run_listener_null (parse : String → Option JSValue) (dirname : String)
    (es : List Event) : ∀ w : World, (w.isListening = false → w.currentListener = .null) →
      (run parse dirname w es).world.isListening = false →
      (run parse dirname w es).world.currentListener = .null := by
  induction es with
  | nil => intro w h; exact h
  | cons e es ih =>
    intro w h
    have hs := step_listener_null parse dirname w e h
    cases ht : (step parse dirname w e).thrown with
    | none => simp only [run, ht]; exact ih _ hs
    | some x => simp only [run, ht]; exact hs

theorem listenersDefined_cons (parse : String → Option JSValue) (e : Event) (es : List Event)
    (h : listenersDefined parse (e :: es) = true) :
    (∀ m, toggleOf parse e = some m → m.status.strictEqString "Listening..." = true →
      m.userId.isDefined = true) ∧ listenersDefined parse es = true := by
  cases e with
  | message i data =>
    cases data with
    | text s =>
      cases hp : parse s with
      | none => simp_all [listenersDefined, toggleOf]
      | some message =>
        simp only [listenersDefined, hp, Bool.and_eq_true, Bool.or_eq_true,
          Bool.not_eq_true'] at h
        refine ⟨?_, h.2⟩
        intro m hm hl
        simp only [toggleOf, hp] at hm
        by_cases ht : (message.prop "type").strictEqString "toggle-listen" = true
        · simp only [ht, if_true, Option.some.injEq] at hm
          subst hm
          simp only [] at hl ⊢
          rcases h.1 with h1 | h1
          · simp [ht, hl] at h1
          · exact h1
        · simp [ht] at hm
    | buffer bytes => simp_all [listenersDefined, toggleOf]
    | other => simp_all [listenersDefined, toggleOf]
  | connection now rnd sb => simp_all [listenersDefined, toggleOf]
  | close i => simp_all [listenersDefined, toggleOf]
  | error i => simp_all [listenersDefined, toggleOf]
  | transport i rs sb => simp_all [listenersDefined, toggleOf]

theorem step_listener_defined (parse : String → Option JSValue) (dirname : String) (w : World)
    (e : Event)
    (he : ∀ m, toggleOf parse e = some m → m.status.strictEqString "Listening..." = true →
      m.userId.isDefined = true)
    (h : w.isListening = true → w.currentListener.isDefined = true) :
    (step parse dirname w e).world.isListening = true →
      (step parse dirname w e).world.currentListener.isDefined = true := by
  obtain ⟨h1, h2⟩ := step_shared_state parse dirname w e
  rw [h1, h2]
  cases ht : toggleOf parse e with
  | none => exact h
  | some m =>
    intro hm
    simp only [] at hm ⊢
    simp only [hm, if_true]
    exact he m ht hm

theorem run_listener_defined (parse : String → Option JSValue) (dirname : String)
    (es : List Event) : ∀ w : World, listenersDefined parse es = true →
      (w.isListening = true → w.currentListener.isDefined = true) →
      (run parse dirname w es).world.isListening = true →
      (run parse dirname w es).world.currentListener.isDefined = true := by
  induction es with
  | nil => intro w _ h; exact h
  | cons e es ih =>
    intro w hd h
    obtain ⟨he, hes⟩ := listenersDefined_cons parse e es hd
    have hs := step_listener_defined parse dirname w e he h
    cases ht : (step parse dirname w e).thrown with
    | none => simp only [run, ht]; exact ih _ hes hs
    | some x => simp only [run, ht]; exact hs

/-- C3, as the code has it: in every state reached from the initial state by a
sequence of connection, frame, close, error and transport events,
`currentListener` is `null` whenever `isListening` is false; and when every
toggle-listen message with status `"Listening..."` in the sequence carries a
`userId` that is neither `null` nor absent, `currentListener` is neither `null`
nor `undefined` if and only if `isListening` is true. -/
theorem listener_defined_iff_listening (parse : String → Option JSValue) (dirname : String)
    (es : List Event) :
    ((run parse dirname World.initial es).world.isListening = false →
      (run parse dirname World.initial es).world.currentListener = .null) ∧
    (listenersDefined parse es = true →
      ((run parse dirname World.initial es).world.currentListener.isDefined = true ↔
        (run parse dirname World.initial es).world.isListening = true)) := by
  have h1 := run_listener_null parse dirname es World.initial (fun _ => rfl)
  refine ⟨h1, fun hd => ⟨fun hdef => ?_, ?_⟩⟩
  · cases hl : (run parse dirname World.initial es).world.isListening with
    | true => rfl
    | false =>
      rw [h1 hl] at hdef
      simp [JSValue.isDefined, JSValue.isNullish] at hdef
  · exact run_listener_defined parse dirname es World.initial hd
      (fun h => by simp [World.initial] at h)

theorem listener_defined_iff_listening_witness :
    listenersDefined sampleParse
      [.connection 1 "abcde" .delivers, .message 0 (.text startFrame)] = true ∧
    (run sampleParse "/srv" World.initial
      [.connection 1 "abcde" .delivers, .message 0 (.text startFrame)]).world.isListening
        = true ∧
    (run sampleParse "/srv" World.initial
      [.connection 1 "abcde" .delivers,
        .message 0 (.text startFrame)]).world.currentListener.isDefined = true :=
  ⟨rfl, rfl,
    ((listener_defined_iff_listening sampleParse "/srv"
      [.connection 1 "abcde" .delivers, .message 0 (.text startFrame)]).2 rfl).2 rfl⟩

/-- C3, as stated, fails: after a connection and the text frame
`{"type":"toggle-listen","status":"Listening...","userId":null}`, `isListening`
is true and `currentListener` is `null`. -/
theorem listening_with_null_listener :
    (run sampleParse "/srv" World.initial
      [.connection 1 "abcde" .delivers, .message 0 (.text anonymousFrame)]).thrown = none ∧
    (run sampleParse "/srv" World.initial
      [.connection 1 "abcde" .delivers, .message 0 (.text anonymousFrame)]).world.isListening
        = true ∧
    (run sampleParse "/srv" World.initial
      [.connection 1 "abcde" .delivers, .message 0 (.text anonymousFrame)]).world.currentListener
        = .null :=
  ⟨rfl, rfl, rfl⟩

theorem initialState_step (parse : String → Option JSValue) (dirname : String) (w : World)
    (e : Event) :
    initialState (step parse dirname w e).world
      = (match toggleOf parse e with
         | none => initialState w
         | some m => pushAfter (some m)) := by
  obtain ⟨h1, h2⟩ := step_shared_state parse dirname w e
  simp only [initialState, h1, h2]
  cases toggleOf parse e with
  | none => rfl
  | some m =>
    cases hm : m.status.strictEqString "Listening..." with
    | true =>
      have hs := (strictEqString_eq_true m.status "Listening...").1 hm
      simp [pushAfter, hm, ← hs]
    | false => simp [pushAfter, hm]

theorem initialState_run (parse : String → Option JSValue) (dirname : String)
    (es : List Event) : ∀ w : World, (run parse dirname w es).thrown = none →
      initialState (run parse dirname w es).world
        = (match lastToggle parse es with
           | none => initialState w
           | some m => pushAfter (some m)) := by
  induction es with
  | nil => intro w _; rfl
  | cons e es ih =>
    intro w hrun
    cases ht : (step parse dirname w e).thrown with
    | none =>
      simp only [run, ht] at hrun ⊢
      rw [ih _ hrun, lastToggle]
      cases lastToggle parse es with
      | none => exact initialState_step parse dirname w e
      | some m => rfl
    | some x => simp [run, ht] at hrun

/-- C4, as the code has it: after a sequence of events handled from the initial
state without an uncaught exception, the state push sent to a client that
connects next is the `{ status, userId }` of the last toggle-listen message of
the sequence when that status is `"Listening..."`, and
`{ status: "", userId: null }` when that status is anything else or when the
sequence has no toggle-listen message. -/
theorem connect_push_after_last_toggle (parse : String → Option JSValue) (dirname : String)
    (es : List Event) (now : Nat) (rnd : String)
    (hrun : (run parse dirname World.initial es).thrown = none) :
    initialState (run parse dirname World.initial es).world = pushAfter (lastToggle parse es) ∧
    ((onConnection dirname (run parse dirname World.initial es).world now rnd
        .delivers).world.clients.getLast?).map Session.received
      = some [pushAfter (lastToggle parse es)] := by
  have h := initialState_run parse dirname es World.initial hrun
  have h' : initialState (run parse dirname World.initial es).world
      = pushAfter (lastToggle parse es) := by
    rw [h]
    cases lastToggle parse es with
    | none => rfl
    | some m => rfl
  refine ⟨h', ?_⟩
  simp [onConnection, Session.send, h']

theorem connect_push_after_last_toggle_witness :
    (run sampleParse "/srv" World.initial
      [.connection 1 "abcde" .delivers, .message 0 (.text startFrame)]).thrown = none ∧
    initialState (run sampleParse "/srv" World.initial
      [.connection 1 "abcde" .delivers, .message 0 (.text startFrame)]).world
      = { status := .string "Listening...", userId := .string "u1" } :=
  ⟨rfl, (connect_push_after_last_toggle sampleParse "/srv"
      [.connection 1 "abcde" .delivers, .message 0 (.text startFrame)] 2 "fghij" rfl).1⟩

/-- C4, as stated, fails: after a connection and the text frame
`{"type":"toggle-listen","status":"","userId":"u1"}`, the last toggle-listen
message, broadcast as `{ status: "", userId: "u1" }`, differs from the state
push of the next connection, which is `{ status: "", userId: null }`. -/
theorem push_differs_from_stop_toggle :
    (run sampleParse "/srv" World.initial
      [.connection 1 "abcde" .delivers, .message 0 (.text stopFrame)]).thrown = none ∧
    lastToggle sampleParse [.connection 1 "abcde" .delivers, .message 0 (.text stopFrame)]
      = some { status := .string "", userId := .string "u1" } ∧
    ((run sampleParse "/srv" World.initial
      [.connection 1 "abcde" .delivers, .message 0 (.text stopFrame)]).world.clients[0]?).map
        Session.received
      = some [{ status := .string "", userId := .null },
              { status := .string "", userId := .string "u1" }] ∧
    initialState (run sampleParse "/srv" World.initial
      [.connection 1 "abcde" .delivers, .message 0 (.text stopFrame)]).world
      = { status := .string "", userId := .null } ∧
    initialState (run sampleParse "/srv" World.initial
      [.connection 1 "abcde" .delivers, .message 0 (.text stopFrame)]).world
      ≠ { status := .string "", userId := .string "u1" } :=
  ⟨rfl, rfl, rfl, rfl, by
    intro h
    have h2 := congrArg Message.userId h
    exact JSValue.noConfusion h2⟩

theorem broadcast_streams (m : Message) (cs : List Session) :
    (broadcast m cs).1.map Session.audioStream = cs.map Session.audioStream := by
  induction cs with
  | nil => rfl
  | cons c cs ih =>
    by_cases ho : c.readyState = .OPEN
    · cases hb : c.sendBehaviour <;> simp [broadcast, ho, Session.send, hb, ih]
    · simp [broadcast, ho, ih]

theorem onMessage_text_streams (parse : String → Option JSValue) (w : World) (i : Nat)
    (s : String) :
    (onMessage parse w i (.text s)).world.clients.map Session.audioStream
      = w.clients.map Session.audioStream := by
  cases hp : parse s with
  | none => simp [onMessage, hp]
  | some message =>
    by_cases hn : message.isNullish = true
    · simp [onMessage, hp, hn]
    · by_cases ht : (message.prop "type").strictEqString "toggle-listen" = true
      · simp [onMessage, hp, hn, ht, toggleListen, broadcast_streams]
      · simp [onMessage, hp, hn, ht]

theorem onMessage_stream (parse : String → Option JSValue) (w : World) (i : Nat) (d : Data)
    (st : WriteStream) (hst : (w.clients[i]?).map Session.audioStream = some st)
    (hopen : st.endCalls = 0) :
    ((onMessage parse w i d).world.clients[i]?).map Session.audioStream
      = some (match d with
              | .buffer bytes => { st with written := st.written ++ bytes }
              | _ => st) := by
  cases d with
  | text s =>
    have h := onMessage_text_streams parse w i s
    have h2 := congrArg (fun l => l[i]?) h
    simp only [List.getElem?_map] at h2
    rw [h2, hst]
  | buffer bytes =>
    cases hc : w.clients[i]? with
    | none => simp [hc] at hst
    | some c =>
      have hlt : i < w.clients.length := by
        rcases Nat.lt_or_ge i w.clients.length with h | h
        · exact h
        · rw [List.getElem?_eq_none h] at hc; cases hc
      simp only [hc, Option.map_some', Option.some.injEq] at hst
      subst hst
      simp [onMessage, hc, List.getElem?_set, hlt, WriteStream.write, hopen,
        Session.withStream]
  | other => simpa [onMessage] using hst

theorem receiveAll_stream (parse : String → Option JSValue) (i : Nat) (frames : List Data) :
    ∀ (w : World) (st : WriteStream), (w.clients[i]?).map Session.audioStream = some st →
      st.endCalls = 0 →
      ((receiveAll parse i w frames).clients[i]?).map Session.audioStream
        = some { st with written := st.written ++ binaryPayloads frames } := by
  induction frames with
  | nil => intro w st hst _; simpa [receiveAll, binaryPayloads] using hst
  | cons d ds ih =>
    intro w st hst hopen
    have h := onMessage_stream parse w i d st hst hopen
    cases d with
    | text s => simpa [receiveAll, binaryPayloads] using ih _ st h hopen
    | buffer bytes =>
      have h2 := ih _ _ h hopen
      simpa [receiveAll, binaryPayloads, List.append_assoc] using h2
    | other => simpa [receiveAll, binaryPayloads] using ih _ st h hopen

theorem run_messages (parse : String → Option JSValue) (dirname : String) (i : Nat)
    (frames : List Data) : ∀ w : World,
      (run parse dirname w (frames.map (Event.message i))).thrown = none →
      (run parse dirname w (frames.map (Event.message i))).world = receiveAll parse i w frames := by
  induction frames with
  | nil => intro w _; rfl
  | cons d ds ih =>
    intro w h
    cases ht : (onMessage parse w i d).thrown with
    | none =>
      simp only [List.map_cons, run, step, ht] at h ⊢
      exact ih _ h
    | some x => simp [run, step, ht] at h

/-- C5: for every sequence of frames handled on one connection whose stream is
open, the bytes written to that stream are the bytes written before followed by
the concatenation, in arrival order, of the payloads of the binary frames of the
sequence; text frames add nothing. When no handler throws, the world in which
this holds is the one the event loop reaches on those frames. -/
theorem sink_is_concatenation_of_binary_frames (parse : String → Option JSValue)
    (dirname : String) (w : World) (i : Nat) (c : Session) (frames : List Data)
    (hc : w.clients[i]? = some c) (hopen : c.audioStream.endCalls = 0) :
    ((receiveAll parse i w frames).clients[i]?).map (fun d => d.audioStream.written)
      = some (c.audioStream.written ++ binaryPayloads frames) ∧
    ((run parse dirname w (frames.map (Event.message i))).thrown = none →
      (run parse dirname w (frames.map (Event.message i))).world
        = receiveAll parse i w frames) := by
  refine ⟨?_, run_messages parse dirname i frames w⟩
  have h := receiveAll_stream parse i frames w c.audioStream (by simp [hc]) hopen
  cases hr : (receiveAll parse i w frames).clients[i]? with
  | none => simp [hr] at h
  | some d =>
    simp only [hr, Option.map_some', Option.some.injEq] at h ⊢
    rw [h]

theorem sink_is_concatenation_of_binary_frames_witness :
    (World.mk false .null [sampleClient .delivers]).clients[0]? = some (sampleClient .delivers) ∧
    (sampleClient .delivers).audioStream.endCalls = 0 ∧
    ((receiveAll sampleParse 0 ⟨false, .null, [sampleClient .delivers]⟩
        [.buffer [1, 2], .text startFrame, .text "oops", .buffer [3]]).clients[0]?).map
        (fun d => d.audioStream.written)
      = some [1, 2, 3] :=
  ⟨rfl, rfl,
    (sink_is_concatenation_of_binary_frames sampleParse "/srv"
      ⟨false, .null, [sampleClient .delivers]⟩ 0 (sampleClient .delivers)
      [.buffer [1, 2], .text startFrame, .text "oops", .buffer [3]] rfl rfl).1⟩

/-- C6: for every text frame that is not valid JSON, the message handler
returns normally and leaves the whole world as it was (the shared state, what
every client has received, every stream), and the events that follow are
handled exactly as if the frame had not been received. -/
theorem malformed_frame_is_discarded (parse : String → Option JSValue) (dirname : String)
    (w : World) (i : Nat) (s : String) (es : List Event) (hparse : parse s = none) :
    (onMessage parse w i (.text s)).thrown = none ∧
    (onMessage parse w i (.text s)).world = w ∧
    run parse dirname w (.message i (.text s) :: es) = run parse dirname w es := by
  have h : onMessage parse w i (.text s) = { world := w, thrown := none } := by
    simp [onMessage, hparse]
  simp [run, step, h]

theorem malformed_frame_is_discarded_witness :
    sampleParse "oops" = none ∧
    (onMessage sampleParse ⟨true, .string "u1", [sampleClient .delivers]⟩ 0
        (.text "oops")).thrown = none :=
  ⟨rfl, (malformed_frame_is_discarded sampleParse "/srv"
      ⟨true, .string "u1", [sampleClient .delivers]⟩ 0 "oops" [] rfl).1⟩

theorem other_message_is_ignored (parse : String → Option JSValue) (w : World) (i : Nat)
    (s : String) (message : JSValue) (hparse : parse s = some message)
    (hn : message.isNullish = false)
    (htype : (message.prop "type").strictEqString "toggle-listen" = false) :
    onMessage parse w i (.text s) = { world := w, thrown := none } := by
  simp [onMessage, hparse, hn, htype]

/-- C7 at the text frame `null`: it parses, to the value `null`, it is not a
toggle-listen message, and the handler throws a `TypeError` when it reads
`message.type`. -/
theorem null_frame_throws :
    sampleParse "null" = some .null ∧
    (onMessage sampleParse ⟨false, .null, [sampleClient .delivers]⟩ 0
        (.text "null")).thrown = some .typeError :=
  ⟨rfl, rfl⟩

theorem run_close_error (parse : String → Option JSValue) (dirname : String) (i : Nat)
    (es : List Event) : ∀ (w : World) (c : Session),
      es.all (isCloseOrError i) = true → w.clients[i]? = some c →
      (run parse dirname w es).thrown = none ∧
      (run parse dirname w es).world.clients[i]?
        = some (c.withStream { c.audioStream with endCalls := c.audioStream.endCalls + es.length }) := by
  induction es with
  | nil => intro w c _ hc; simpa [run, Session.withStream] using hc
  | cons e es ih =>
    intro w c hall hc
    simp only [List.all_cons, Bool.and_eq_true] at hall
    have hstep : (step parse dirname w e).thrown = none ∧
        (step parse dirname w e).world.clients[i]? = some c.endStream := by
      cases e with
      | close j =>
        have hj : j = i := by simpa [isCloseOrError] using hall.1
        subst hj
        simp [step, onCloseOrError, hc]
      | error j =>
        have hj : j = i := by simpa [isCloseOrError] using hall.1
        subst hj
        simp [step, onCloseOrError, hc]
      | connection now rnd sb => simp [isCloseOrError] at hall
      | message j d => simp [isCloseOrError] at hall
      | transport j rs sb => simp [isCloseOrError] at hall
    have h := ih _ _ hall.2 hstep.2
    simp only [run, hstep.1]
    refine ⟨h.1, ?_⟩
    rw [h.2]
    simp [Session.endStream, Session.withStream, WriteStream.end, Nat.add_assoc,
      Nat.add_comm 1]

/-- C8, as the code has it: each close event and each error event of a
connection calls `end()` on the stream of that connection once, so a sequence
of n such events calls it n times; none of them throws or writes to the
stream. -/
theorem each_close_or_error_ends_stream (parse : String → Option JSValue) (dirname : String)
    (w : World) (i : Nat) (c : Session) (es : List Event)
    (hes : es.all (isCloseOrError i) = true) (hc : w.clients[i]? = some c) :
    (run parse dirname w es).thrown = none ∧
    ((run parse dirname w es).world.clients[i]?).map (fun d => d.audioStream.endCalls)
      = some (c.audioStream.endCalls + es.length) ∧
    ((run parse dirname w es).world.clients[i]?).map (fun d => d.audioStream.written)
      = some c.audioStream.written := by
  obtain ⟨h1, h2⟩ := run_close_error parse dirname i es w c hes hc
  refine ⟨h1, ?_, ?_⟩ <;> simp [h2, Session.withStream]

theorem each_close_or_error_ends_stream_witness :
    [Event.close 0].all (isCloseOrError 0) = true ∧
    (World.mk false .null [sampleClient .delivers]).clients[0]? = some (sampleClient .delivers) ∧
    ((run sampleParse "/srv" ⟨false, .null, [sampleClient .delivers]⟩
        [.close 0]).world.clients[0]?).map (fun d => d.audioStream.endCalls) = some 1 :=
  ⟨rfl, rfl,
    (each_close_or_error_ends_stream sampleParse "/srv" ⟨false, .null, [sampleClient .delivers]⟩
      0 (sampleClient .delivers) [.close 0] rfl rfl).2.1⟩

/-- C8, as stated, fails: an error event followed by the close event of the
same connection calls `end()` on its stream twice. -/
theorem error_then_close_ends_twice :
    ((run sampleParse "/srv" ⟨false, .null, [sampleClient .delivers]⟩
        [.error 0, .close 0]).world.clients[0]?).map (fun d => d.audioStream.endCalls)
      = some 2 :=
  rfl

/-- C10: for every request `POST /upload` that reaches the handler, the
response is HTTP 400 with body `{ error: "No audio file provided" }` if and
only if `req.file` is undefined, that is, the request carries no parsed audio
file; otherwise, the file being where the storage put it, the response is HTTP
200 with body `{ message, filename }` whose `filename` is that of `req.file`,
which for the disk storage of lines 18-27 is the generated name under which the
bytes were stored in the recordings directory; in neither case does the handler
change `isListening`, `currentListener` or the clients. -/
theorem upload_response (dirname : String) (w : World) (now : Nat) (fs : FileSystem)
    (file : Option MulterFile) (bytes : List Nat) :
    ((uploadHandler w fs file).response
        = some { status := 400, body := .object [("error", .string "No audio file provided")] }
      ↔ file = none) ∧
    (file = none → (uploadHandler w fs file).thrown = none) ∧
    (∀ f size, file = some f → statSync fs f.path = some size →
      (uploadHandler w fs file).response
        = some { status := 200,
                 body := .object [("message", .string "File uploaded successfully"),
                                  ("filename", .string f.filename)] } ∧
      (uploadHandler w fs file).thrown = none) ∧
    (uploadHandler w fs file).world = w ∧
    (storage.handleFile dirname now bytes fs).2.filename = storage.filename now ∧
    (storage.handleFile dirname now bytes fs).1.lookup
        (pathJoin (recordingsDir dirname) (storage.filename now)) = some bytes ∧
    (uploadHandler w (storage.handleFile dirname now bytes fs).1
        (some (storage.handleFile dirname now bytes fs).2)).response
      = some { status := 200,
               body := .object [("message", .string "File uploaded successfully"),
                                ("filename", .string (storage.filename now))] } ∧
    (uploadHandler w (storage.handleFile dirname now bytes fs).1
        (some (storage.handleFile dirname now bytes fs).2)).thrown = none := by
  refine ⟨?_, ?_, ?_, ?_, rfl, ?_, ?_, ?_⟩
  · cases file with
    | none => simp [uploadHandler]
    | some f => cases hs : statSync fs f.path <;> simp [uploadHandler, hs]
  · intro h; subst h; rfl
  · intro f size hf hs; subst hf; simp [uploadHandler, hs]
  · cases file with
    | none => rfl
    | some f => cases hs : statSync fs f.path <;> simp [uploadHandler, hs]
  · simp [storage.handleFile, storage.destination, List.lookup]
  · simp [uploadHandler, storage.handleFile, statSync, List.lookup]
  · simp [uploadHandler, storage.handleFile, statSync, List.lookup]

theorem upload_response_witness :
    statSync [("/srv/recordings/recording-5.webm", [7, 8, 9])]
      "/srv/recordings/recording-5.webm" = some 3 ∧
    (uploadHandler ⟨true, .string "u1", []⟩
        [("/srv/recordings/recording-5.webm", [7, 8, 9])]
        (some ⟨"/srv/recordings", "recording-5.webm", "/srv/recordings/recording-5.webm",
          3⟩)).response
      = some { status := 200,
               body := .object [("message", .string "File uploaded successfully"),
                                ("filename", .string "recording-5.webm")] } ∧
    (storage.handleFile "/srv" 5 [7, 8, 9] []).2.path = "/srv/recordings/recording-5.webm" :=
  ⟨rfl,
    ((upload_response "/srv" ⟨true, .string "u1", []⟩ 5
      [("/srv/recordings/recording-5.webm", [7, 8, 9])]
      (some ⟨"/srv/recordings", "recording-5.webm", "/srv/recordings/recording-5.webm", 3⟩)
      [7, 8, 9]).2.2.1 _ 3 rfl rfl).1,
    rfl⟩

end AudioListen
